import Mathlib

/-!
Shallow embedding of `dht11_driver.c` (a Linux platform-device character
driver for a DHT11 sensor register) and proofs about its lifecycle and
read paths.

The driver's observable state is the module-scope globals (`res`,
`remap_size`, `base_addr`, `dev`) together with a ledger of the kernel
resources currently held (memory-region reservation, ioremap mapping,
chrdev region, registered cdev, device class, device node).  The outcomes
of the kernel calls made by `dht11_probe` (whether `platform_get_resource`
finds a resource, whether `request_mem_region` / `ioremap` /
`alloc_chrdev_region` / `cdev_add` / `class_create` / `device_create`
succeed and what they return) are an environment the probe is a function
of.  Every function also returns the list of acquire and release events
it performs, in order, so that rollback and teardown ordering can be
stated.
-/

namespace DHT11

/-- errno value returned as `-ENODEV` when no memory resource is found. -/
def ENODEV : Int := 19

/-- errno value returned as negative when the IO range cannot be reserved
(the C code's `ENXIO`). -/
def ENXIOERR : Int := 6

/-- errno value returned as `-ENOMEM` when `ioremap` fails. -/
def ENOMEM : Int := 12

/-- errno value returned as `-EACCES` when `copy_to_user` fails. -/
def EACCES : Int := 13

/-- A device-tree memory resource: physical start and end addresses
(`res->start`, `res->end`). -/
structure Resource where
  start : Nat
  resEnd : Nat
  deriving DecidableEq, Repr

/-- `remap_size = res->end - res->start + 1`. -/
def remapSize (r : Resource) : Nat :=
  r.resEnd - r.start + 1

/-- The kernel resources acquired by `dht11_probe` and released by the
error chain / `dht11_remove`. -/
inductive KernelRes where
  | memRegion
  | mapping
  | chrdevRegion
  | cdevReg
  | devClass
  | devNode
  deriving DecidableEq, Repr

/-- An acquire or release event performed on a kernel resource. -/
inductive Ev where
  | acquire (r : KernelRes)
  | release (r : KernelRes)
  deriving DecidableEq, Repr

/-- The driver's global state: the module-scope variables of the C file
(`res`, `remap_size`, `base_addr`, `dev`) plus, for each kernel resource,
whether it is currently held.  Note the C globals can hold stale values
(e.g. `iounmap` does not clear `base_addr`): the `...Held` flags track the
kernel-side resource, the variable fields track the variable. -/
structure DriverState where
  res : Option Resource
  remap_size : Nat
  base_addr : Option Nat
  dev : Nat
  memRegionHeld : Bool
  mappingHeld : Bool
  chrdevHeld : Bool
  cdevHeld : Bool
  classHeld : Bool
  devNodeHeld : Bool
  deriving DecidableEq, Repr

/-- The state before the module is attached: no globals set, no kernel
resource held. -/
def initState : DriverState :=
  { res := none, remap_size := 0, base_addr := none, dev := 0,
    memRegionHeld := false, mappingHeld := false, chrdevHeld := false,
    cdevHeld := false, classHeld := false, devNodeHeld := false }

/-- `true` when no kernel resource is held (the pre-attach resource
state). -/
def noResourcesHeld (s : DriverState) : Bool :=
  s.memRegionHeld == false && s.mappingHeld == false &&
  s.chrdevHeld == false && s.cdevHeld == false &&
  s.classHeld == false && s.devNodeHeld == false

/-- Outcomes of the kernel calls issued by one `dht11_probe` attempt:
what `platform_get_resource` returns, whether `request_mem_region`
succeeds, what `ioremap` returns (`none` models NULL), the return value
of `alloc_chrdev_region` (0 on success) and the device number it hands
out, the return value of `cdev_add` (negative on failure), and whether
`class_create` / `device_create` return a non-error pointer. -/
structure ProbeEnv where
  getResource : Option Resource
  requestMemRegionOk : Bool
  ioremapResult : Option Nat
  allocChrdevRet : Int
  allocChrdevDev : Nat
  cdevAddRet : Int
  classCreateOk : Bool
  deviceCreateOk : Bool
  deriving DecidableEq, Repr

/-- The `err_release_region` label: `release_mem_region(...)`, then
`return ret`. -/
def err_release_region (ret : Int) (s : DriverState) (tr : List Ev) :
    Int × DriverState × List Ev :=
  (ret, { s with memRegionHeld := false }, tr ++ [Ev.release KernelRes.memRegion])

/-- The `err_unmap` label: `iounmap(base_addr)` (the variable keeps its
stale value), then fall through to `err_release_region`. -/
def err_unmap (ret : Int) (s : DriverState) (tr : List Ev) :
    Int × DriverState × List Ev :=
  err_release_region ret { s with mappingHeld := false }
    (tr ++ [Ev.release KernelRes.mapping])

/-- The `err_unregister` label: `unregister_chrdev_region(dev, 1)`, then
fall through to `err_unmap`. -/
def err_unregister (ret : Int) (s : DriverState) (tr : List Ev) :
    Int × DriverState × List Ev :=
  err_unmap ret { s with chrdevHeld := false }
    (tr ++ [Ev.release KernelRes.chrdevRegion])

/-- The `err_delete_cdev` label: `cdev_del(&c_dev)`, then fall through to
`err_unregister`. -/
def err_delete_cdev (ret : Int) (s : DriverState) (tr : List Ev) :
    Int × DriverState × List Ev :=
  err_unregister ret { s with cdevHeld := false }
    (tr ++ [Ev.release KernelRes.cdevReg])

/-- The `err_class_destroy` label: `class_destroy(cl)`, then fall through
to `err_delete_cdev`. -/
def err_class_destroy (ret : Int) (s : DriverState) (tr : List Ev) :
    Int × DriverState × List Ev :=
  err_delete_cdev ret { s with classHeld := false }
    (tr ++ [Ev.release KernelRes.devClass])

/-- `dht11_probe`, mirroring the C control flow statement by statement:
look up the device-tree memory resource (return `-ENODEV` if absent),
compute `remap_size`, reserve the region (return the negated `ENXIO`
errno if that fails), `ioremap` it (`ret = -ENOMEM` and
`goto err_release_region` on NULL), `alloc_chrdev_region` (nonzero return
goes to `err_unmap`), `cdev_add` (negative return goes to
`err_unregister`), `class_create` (error pointer goes to
`err_delete_cdev` — note the C does not assign `ret` here, so `ret` still
holds `cdev_add`'s return value), `device_create` (error pointer goes to
`err_class_destroy`, same unassigned `ret`), then `return 0`. -/
def dht11_probe (env : ProbeEnv) (s : DriverState) :
    Int × DriverState × List Ev :=
  match env.getResource with
  | none => (-ENODEV, { s with res := none }, [])
  | some r =>
    let s1 := { s with res := some r, remap_size := remapSize r }
    if env.requestMemRegionOk = false then
      (-ENXIOERR, s1, [])
    else
      let s2 := { s1 with memRegionHeld := true }
      let t2 := [Ev.acquire KernelRes.memRegion]
      match env.ioremapResult with
      | none => err_release_region (-ENOMEM) { s2 with base_addr := none } t2
      | some a =>
        let s3 := { s2 with base_addr := some a, mappingHeld := true }
        let t3 := t2 ++ [Ev.acquire KernelRes.mapping]
        if env.allocChrdevRet ≠ 0 then
          err_unmap env.allocChrdevRet s3 t3
        else
          let s4 := { s3 with dev := env.allocChrdevDev, chrdevHeld := true }
          let t4 := t3 ++ [Ev.acquire KernelRes.chrdevRegion]
          if env.cdevAddRet < 0 then
            err_unregister env.cdevAddRet s4 t4
          else
            let s5 := { s4 with cdevHeld := true }
            let t5 := t4 ++ [Ev.acquire KernelRes.cdevReg]
            if env.classCreateOk = false then
              err_delete_cdev env.cdevAddRet s5 t5
            else
              let s6 := { s5 with classHeld := true }
              let t6 := t5 ++ [Ev.acquire KernelRes.devClass]
              if env.deviceCreateOk = false then
                err_class_destroy env.cdevAddRet s6 t6
              else
                (0, { s6 with devNodeHeld := true },
                 t6 ++ [Ev.acquire KernelRes.devNode])

/-- `dht11_remove`: `device_destroy`, `class_destroy`, `cdev_del`,
`unregister_chrdev_region`, `iounmap`, `release_mem_region`, in that
order, then `return 0`.  The global variables keep their (now stale)
values. -/
def dht11_remove (s : DriverState) : Int × DriverState × List Ev :=
  (0,
   { s with devNodeHeld := false, classHeld := false, cdevHeld := false,
            chrdevHeld := false, mappingHeld := false, memRegionHeld := false },
   [Ev.release KernelRes.devNode, Ev.release KernelRes.devClass,
    Ev.release KernelRes.cdevReg, Ev.release KernelRes.chrdevRegion,
    Ev.release KernelRes.mapping, Ev.release KernelRes.memRegion])

/-- `probeSucceeded env` holds exactly when every acquisition step of
`dht11_probe` succeeds under `env` (the conditions of the seven checks in
the C function, in order). -/
def probeSucceeded (env : ProbeEnv) : Prop :=
  env.getResource ≠ none ∧ env.requestMemRegionOk = true ∧
  env.ioremapResult ≠ none ∧ env.allocChrdevRet = 0 ∧
  ¬ env.cdevAddRet < 0 ∧ env.classCreateOk = true ∧
  env.deviceCreateOk = true

instance (env : ProbeEnv) : Decidable (probeSucceeded env) := by
  unfold probeSucceeded
  infer_instance

/-- The acquire events of a trace, in order. -/
def acquired (tr : List Ev) : List KernelRes :=
  tr.filterMap fun e =>
    match e with
    | Ev.acquire r => some r
    | Ev.release _ => none

/-- The release events of a trace, in order. -/
def released (tr : List Ev) : List KernelRes :=
  tr.filterMap fun e =>
    match e with
    | Ev.acquire _ => none
    | Ev.release r => some r

/-- Outcomes of the kernel interactions of one `dht11_read` call: the
32-bit value the `ioread32(base_addr)` load returns, and whether
`copy_to_user` copies all 4 bytes (returns 0). -/
structure ReadEnv where
  regValue : Nat
  copySucceeds : Bool
  deriving DecidableEq, Repr

/-- The four bytes of a 32-bit value in memory order on the (little-endian
ARM) target, as copied by `copy_to_user(buf, &data, sizeof(uint32_t))`. -/
def u32bytes (d : Nat) : List Nat :=
  [d % 256, d / 256 % 256, d / 65536 % 256, d / 16777216 % 256]

/-- `dht11_read`: memory read barrier (no sequential effect), one 32-bit
load from the mapped base address, `copy_to_user` of its 4 bytes; returns
`-EACCES` if the copy fails, else `sizeof(uint32_t) = 4`.  The result is
(return value, bytes delivered to user space, driver state, file
position); `count` and `f_pos` are parameters the C function never uses,
and no global is written. -/
def dht11_read (env : ReadEnv) (s : DriverState) (count : Nat) (f_pos : Int) :
    Int × Option (List Nat) × DriverState × Int :=
  let data : Nat := env.regValue % 2 ^ 32
  if env.copySucceeds then
    (4, some (u32bytes data), s, f_pos)
  else
    (-EACCES, none, s, f_pos)

/-- `dht11_open`: does nothing, returns 0. -/
def dht11_open (s : DriverState) : Int × DriverState :=
  (0, s)

/-- `dht11_close`: does nothing, returns 0. -/
def dht11_close (s : DriverState) : Int × DriverState :=
  (0, s)

/-- An environment in which every probe step succeeds. -/
def probeEnvAllOk : ProbeEnv :=
  { getResource := some { start := 4, resEnd := 7 },
    requestMemRegionOk := true, ioremapResult := some 100,
    allocChrdevRet := 0, allocChrdevDev := 244, cdevAddRet := 0,
    classCreateOk := true, deviceCreateOk := true }

/-- An environment in which the device tree supplies no memory
resource. -/
def probeEnvNoResource : ProbeEnv :=
  { getResource := none,
    requestMemRegionOk := true, ioremapResult := some 100,
    allocChrdevRet := 0, allocChrdevDev := 244, cdevAddRet := 0,
    classCreateOk := true, deviceCreateOk := true }

/-- An environment in which `ioremap` returns NULL and every earlier step
succeeds. -/
def probeEnvIoremapFails : ProbeEnv :=
  { getResource := some { start := 4, resEnd := 7 },
    requestMemRegionOk := true, ioremapResult := none,
    allocChrdevRet := 0, allocChrdevDev := 244, cdevAddRet := 0,
    classCreateOk := true, deviceCreateOk := true }

/-- An environment in which `class_create` returns an error pointer and
every earlier step succeeds (in particular `cdev_add` returned 0). -/
def probeEnvClassCreateFails : ProbeEnv :=
  { getResource := some { start := 4, resEnd := 7 },
    requestMemRegionOk := true, ioremapResult := some 100,
    allocChrdevRet := 0, allocChrdevDev := 244, cdevAddRet := 0,
    classCreateOk := false, deviceCreateOk := true }

/-- An environment in which `device_create` returns an error pointer and
every earlier step succeeds (in particular `cdev_add` returned 0). -/
def probeEnvDeviceCreateFails : ProbeEnv :=
  { getResource := some { start := 4, resEnd := 7 },
    requestMemRegionOk := true, ioremapResult := some 100,
    allocChrdevRet := 0, allocChrdevDev := 244, cdevAddRet := 0,
    classCreateOk := true, deviceCreateOk := false }

/-- C4: every `dht11_read` call returns either exactly 4 (the number of
bytes transferred) or a negative error; it never returns a short count
strictly between 0 and 4, and never 0. -/
theorem dht11_read_exact_four_or_error (env : ReadEnv) (s : DriverState)
    (count : Nat) (f_pos : Int) :
    ((dht11_read env s count f_pos).1 = 4 ∨ (dht11_read env s count f_pos).1 < 0) ∧
    ¬ (0 < (dht11_read env s count f_pos).1 ∧ (dht11_read env s count f_pos).1 < 4) ∧
    (dht11_read env s count f_pos).1 ≠ 0 := by
  cases hc : env.copySucceeds <;> simp [dht11_read, hc, EACCES]

/-- C6: when `copy_to_user` fails, `dht11_read` returns `-EACCES`,
delivers nothing, and leaves the driver state and file position exactly
as they were (no resource acquired, released or changed). -/
theorem dht11_read_copy_failure_frame (env : ReadEnv) (s : DriverState)
    (count : Nat) (f_pos : Int) (h : env.copySucceeds = false) :
    dht11_read env s count f_pos = (-EACCES, none, s, f_pos) := by
  simp [dht11_read, h]

/-- C6 witness: a concrete failing copy returns `-EACCES` and changes
nothing. -/
theorem dht11_read_copy_failure_frame_witness :
    dht11_read { regValue := 5, copySucceeds := false } initState 10 0 =
      (-EACCES, none, initState, 0) :=
  dht11_read_copy_failure_frame { regValue := 5, copySucceeds := false }
    initState 10 0 rfl

/-- C8: two reads between which the hardware register value is unchanged
and whose user-space copies both succeed deliver the same 4 bytes (and
the same return value), whatever the states, counts and file positions
of the two calls. -/
theorem dht11_read_two_run_determinism (e1 e2 : ReadEnv)
    (s1 s2 : DriverState) (c1 c2 : Nat) (p1 p2 : Int)
    (hreg : e1.regValue = e2.regValue)
    (h1 : e1.copySucceeds = true) (h2 : e2.copySucceeds = true) :
    (dht11_read e1 s1 c1 p1).2.1 = (dht11_read e2 s2 c2 p2).2.1 ∧
    (dht11_read e1 s1 c1 p1).1 = (dht11_read e2 s2 c2 p2).1 := by
  simp [dht11_read, h1, h2, hreg]

/-- C8 witness: two concrete back-to-back reads of the same register
value deliver the same bytes. -/
theorem dht11_read_two_run_determinism_witness :
    (dht11_read { regValue := 7, copySucceeds := true } initState 4 0).2.1 =
      (dht11_read { regValue := 7, copySucceeds := true } initState 8 1).2.1 ∧
    (dht11_read { regValue := 7, copySucceeds := true } initState 4 0).1 =
      (dht11_read { regValue := 7, copySucceeds := true } initState 8 1).1 :=
  dht11_read_two_run_determinism { regValue := 7, copySucceeds := true }
    { regValue := 7, copySucceeds := true } initState initState 4 8 0 1
    rfl rfl rfl

/-- C9: `dht11_read` ignores the caller-supplied count and the file
position: its return value and delivered bytes are the same for any
count (including counts below 4) and any position, the file position it
hands back is exactly the one it was given (never advanced, so EOF is
never reached), and on a successful copy it delivers exactly the 4 bytes
of the register value and returns 4. -/
theorem dht11_read_ignores_count_and_pos (env : ReadEnv) (s : DriverState)
    (c c' : Nat) (p p' : Int) :
    (dht11_read env s c p).1 = (dht11_read env s c' p').1 ∧
    (dht11_read env s c p).2.1 = (dht11_read env s c' p').2.1 ∧
    (dht11_read env s c p).2.2.2 = p ∧
    (dht11_read { regValue := env.regValue, copySucceeds := true } s c p).1 = 4 ∧
    (dht11_read { regValue := env.regValue, copySucceeds := true } s c p).2.1 =
      some (u32bytes (env.regValue % 2 ^ 32)) ∧
    (u32bytes (env.regValue % 2 ^ 32)).length = 4 := by
  cases hc : env.copySucceeds <;> simp [dht11_read, u32bytes, hc]

/-- C10: `dht11_open` and `dht11_close` always return 0 and leave every
piece of driver state (resource pointer, size, mapping, device number,
and all held resources) unchanged. -/
theorem dht11_open_close_trivial (s : DriverState) :
    dht11_open s = (0, s) ∧ dht11_close s = (0, s) := by
  simp [dht11_open, dht11_close]

/-- C7: when the platform supplies no device-tree memory resource,
`dht11_probe` returns `-ENODEV` having performed no acquire or release
event, and the reservation, mapping and device-node resources are
exactly as before the call. -/
theorem dht11_probe_no_resource (env : ProbeEnv) (s : DriverState)
    (h : env.getResource = none) :
    (dht11_probe env s).1 = -ENODEV ∧
    (dht11_probe env s).2.2 = [] ∧
    (dht11_probe env s).2.1.memRegionHeld = s.memRegionHeld ∧
    (dht11_probe env s).2.1.mappingHeld = s.mappingHeld ∧
    (dht11_probe env s).2.1.devNodeHeld = s.devNodeHeld := by
  simp [dht11_probe, h]

/-- C7 witness: the concrete no-resource environment fails with
`-ENODEV` and acquires nothing. -/
theorem dht11_probe_no_resource_witness :
    (dht11_probe probeEnvNoResource initState).1 = -ENODEV ∧
    (dht11_probe probeEnvNoResource initState).2.2 = [] ∧
    (dht11_probe probeEnvNoResource initState).2.1.memRegionHeld =
      initState.memRegionHeld ∧
    (dht11_probe probeEnvNoResource initState).2.1.mappingHeld =
      initState.mappingHeld ∧
    (dht11_probe probeEnvNoResource initState).2.1.devNodeHeld =
      initState.devNodeHeld :=
  dht11_probe_no_resource probeEnvNoResource initState rfl

/-- C1: when `class_create` fails after `cdev_add` succeeded (returning
0), `dht11_probe` runs the rollback chain but returns `ret = 0` — it
reports success, not a negative error code, because the C code never
assigns `ret` on the `class_create` / `device_create` failure paths.
This contradicts the claim that every failing attach returns a negative
error code. -/
theorem dht11_probe_class_create_failure_returns_zero :
    (dht11_probe probeEnvClassCreateFails initState).1 = 0 ∧
    ¬ (dht11_probe probeEnvClassCreateFails initState).1 < 0 ∧
    ¬ probeSucceeded probeEnvClassCreateFails := by
  decide

/-- C2: when `device_create` fails after every earlier step succeeded,
`dht11_probe` tears the mapping down and yet returns 0 (success).  The
driver is then in the "Attached" state by the spec's definition (probe
returned success, remove has not run) while the virtual mapping is
invalid and no device node exists, refuting the mapping-valid-iff-
attached invariant. -/
theorem dht11_probe_success_with_mapping_torn_down :
    (dht11_probe probeEnvDeviceCreateFails initState).1 = 0 ∧
    (dht11_probe probeEnvDeviceCreateFails initState).2.1.mappingHeld = false ∧
    (dht11_probe probeEnvDeviceCreateFails initState).2.1.devNodeHeld = false ∧
    ¬ probeSucceeded probeEnvDeviceCreateFails := by
  decide

/-- C3: whenever any acquisition step of `dht11_probe` fails (starting
from a state holding no resources), every resource acquired by the
earlier steps is released again — the release events are exactly the
acquire events in reverse order — and the post-state holds no resources,
i.e. it is the pre-attach resource state. -/
theorem dht11_probe_failure_rolls_back (env : ProbeEnv) (s : DriverState)
    (h0 : noResourcesHeld s = true) (h : ¬ probeSucceeded env) :
    noResourcesHeld (dht11_probe env s).2.1 = true ∧
    released (dht11_probe env s).2.2 =
      (acquired (dht11_probe env s).2.2).reverse := by
  have h6 := h0
  simp only [noResourcesHeld, Bool.and_eq_true, beq_iff_eq] at h6
  obtain ⟨⟨⟨⟨⟨e1, e2⟩, e3⟩, e4⟩, e5⟩, e6⟩ := h6
  rcases hres : env.getResource with _ | r
  · simp [dht11_probe, hres, noResourcesHeld, released, acquired,
      e1, e2, e3, e4, e5, e6]
  · cases hreq : env.requestMemRegionOk with
    | false =>
        simp [dht11_probe, hres, hreq, noResourcesHeld, released, acquired,
          e1, e2, e3, e4, e5, e6]
    | true =>
        rcases hio : env.ioremapResult with _ | a
        · simp [dht11_probe, hres, hreq, hio, err_release_region,
            noResourcesHeld, released, acquired, List.filterMap_cons,
            e1, e2, e3, e4, e5, e6]
        · by_cases hal : env.allocChrdevRet = 0
          · by_cases hcd : env.cdevAddRet < 0
            · simp [dht11_probe, hres, hreq, hio, hal, hcd, err_unregister,
                err_unmap, err_release_region, noResourcesHeld, released,
                acquired, List.filterMap_cons, e1, e2, e3, e4, e5, e6]
            · cases hcl : env.classCreateOk with
              | false =>
                  simp [dht11_probe, hres, hreq, hio, hal, hcd, hcl,
                    err_delete_cdev, err_unregister, err_unmap,
                    err_release_region, noResourcesHeld, released, acquired,
                    List.filterMap_cons, e1, e2, e3, e4, e5, e6]
              | true =>
                  cases hdev : env.deviceCreateOk with
                  | false =>
                      simp [dht11_probe, hres, hreq, hio, hal, hcd, hcl, hdev,
                        err_class_destroy, err_delete_cdev, err_unregister,
                        err_unmap, err_release_region, noResourcesHeld,
                        released, acquired, List.filterMap_cons,
                        e1, e2, e3, e4, e5, e6]
                  | true =>
                      exact absurd
                        ⟨by simp [hres], hreq, by simp [hio], hal, hcd,
                         hcl, hdev⟩ h
          · simp [dht11_probe, hres, hreq, hio, hal, err_unmap,
              err_release_region, noResourcesHeld, released, acquired,
              List.filterMap_cons, e1, e2, e3, e4, e5, e6]

/-- C3 witness: a probe whose `ioremap` fails releases its one acquired
resource and ends holding nothing. -/
theorem dht11_probe_failure_rolls_back_witness :
    noResourcesHeld (dht11_probe probeEnvIoremapFails initState).2.1 = true ∧
    released (dht11_probe probeEnvIoremapFails initState).2.2 =
      (acquired (dht11_probe probeEnvIoremapFails initState).2.2).reverse :=
  dht11_probe_failure_rolls_back probeEnvIoremapFails initState
    (by decide) (by decide)

/-- C5: after a fully successful `dht11_probe`, `dht11_remove` releases
exactly the resources the probe acquired, in exact reverse order of
acquisition — device node, class, cdev, chrdev region, mapping, memory
reservation — so the release count equals the acquire count and no
resource remains held. -/
theorem dht11_remove_releases_in_reverse (env : ProbeEnv) (s : DriverState)
    (h : probeSucceeded env) :
    released (dht11_remove (dht11_probe env s).2.1).2.2 =
      (acquired (dht11_probe env s).2.2).reverse ∧
    (released (dht11_remove (dht11_probe env s).2.1).2.2).length =
      (acquired (dht11_probe env s).2.2).length ∧
    released (dht11_remove (dht11_probe env s).2.1).2.2 =
      [KernelRes.devNode, KernelRes.devClass, KernelRes.cdevReg,
       KernelRes.chrdevRegion, KernelRes.mapping, KernelRes.memRegion] ∧
    noResourcesHeld (dht11_remove (dht11_probe env s).2.1).2.1 = true := by
  obtain ⟨g1, g2, g3, g4, g5, g6, g7⟩ := h
  rcases hres : env.getResource with _ | r
  · exact absurd hres g1
  · rcases hio : env.ioremapResult with _ | a
    · exact absurd hio g3
    · simp [dht11_probe, dht11_remove, hres, hio, g2, g4, g5, g6, g7,
        released, acquired, noResourcesHeld, List.filterMap_cons]

/-- C5 witness: a concrete successful attach followed by detach releases
the six acquired resources in reverse order and leaks nothing. -/
theorem dht11_remove_releases_in_reverse_witness :
    released (dht11_remove (dht11_probe probeEnvAllOk initState).2.1).2.2 =
      (acquired (dht11_probe probeEnvAllOk initState).2.2).reverse ∧
    (released (dht11_remove (dht11_probe probeEnvAllOk initState).2.1).2.2).length =
      (acquired (dht11_probe probeEnvAllOk initState).2.2).length ∧
    released (dht11_remove (dht11_probe probeEnvAllOk initState).2.1).2.2 =
      [KernelRes.devNode, KernelRes.devClass, KernelRes.cdevReg,
       KernelRes.chrdevRegion, KernelRes.mapping, KernelRes.memRegion] ∧
    noResourcesHeld (dht11_remove (dht11_probe probeEnvAllOk initState).2.1).2.1 = true :=
  dht11_remove_releases_in_reverse probeEnvAllOk initState (by decide)

end DHT11
